import Mathlib

/-!
Verification development for the cloud-guardian-client job orchestration,
signature-verification and reboot-safety subsystem.

The Go sources are shallowly embedded: pure helpers become Lean functions,
collaborator calls (HTTP requests, `/proc/uptime` reads, subprocesses) become
explicit outcome parameters collected in an environment record, and the
observable behaviour of the orchestrator (status pushes, reboot/command/update
invocations) is an explicit event trace.  Machine integers (`int64`, `int`) are
modelled as `Int` with explicit two's-complement wrapping where Go can
overflow.
-/

namespace CloudGuardian

/-! ## Job data model (src/cli/cli.go `HostJob`, src/unnamed/part_001) -/

/-- A server-issued job, field for field the Go `HostJob` struct. -/
structure HostJob where
  JobId     : String
  Signature : String
  CreatedAt : String
  JobType   : String
  JobData   : String
  Result    : String
  Status    : String
deriving Repr, DecidableEq

/-! ## strconv.ParseInt(s, 10, 64)

Embedding of the Go call used by `checkRebootStatus`: an optional single
leading sign, then one or more ASCII decimal digits, value bounded to a
signed 64-bit integer (positive max 2^63 - 1, negative min -2^63).
Any other input, including the empty string, fails. -/

/-- Value of one ASCII decimal digit, or `none`. -/
def digitVal (c : Char) : Option Nat :=
  if c.isDigit then some (c.toNat - 48) else none

/-- Accumulate decimal digits left to right; fails on any non-digit. -/
def parseDigitsAux : List Char → Nat → Option Nat
  | [], acc => some acc
  | c :: rest, acc =>
    match digitVal c with
    | none => none
    | some d => parseDigitsAux rest (10 * acc + d)

/-- `strconv.ParseInt(s, 10, 64)`: `some` value on success, `none` on any
syntax or range error (Go reports a non-nil error in both cases and the
caller only tests the error for non-nilness). -/
def parseIntChars (s : List Char) : Option Int :=
  match s with
  | [] => none
  | c :: rest =>
    if c = '+' then
      if rest = [] then none
      else (parseDigitsAux rest 0).bind fun n =>
        if (n : Int) ≤ 2 ^ 63 - 1 then some (n : Int) else none
    else if c = '-' then
      if rest = [] then none
      else (parseDigitsAux rest 0).bind fun n =>
        if (n : Int) ≤ 2 ^ 63 then some (-(n : Int)) else none
    else
      (parseDigitsAux (c :: rest) 0).bind fun n =>
        if (n : Int) ≤ 2 ^ 63 - 1 then some (n : Int) else none

/-! ## SHA-256 (Go `crypto/sha256`, FIPS 180-4)

Executable embedding over byte lists (each entry a byte value < 256),
validated against the standard test vectors.  All 32-bit words are `Nat`
with explicit reduction mod `2^32`. -/

/-- Truncate to a 32-bit word. -/
def w32 (n : Nat) : Nat := n % 4294967296

/-- 32-bit right rotation. -/
def rotr32 (k n : Nat) : Nat := w32 ((n >>> k) ||| (n <<< (32 - k)))

/-- Message-schedule sigma-0. -/
def smallSigma0 (x : Nat) : Nat := (rotr32 7 x) ^^^ (rotr32 18 x) ^^^ (x >>> 3)

/-- Message-schedule sigma-1. -/
def smallSigma1 (x : Nat) : Nat := (rotr32 17 x) ^^^ (rotr32 19 x) ^^^ (x >>> 10)

/-- Compression Sigma-0. -/
def bigSigma0 (x : Nat) : Nat := (rotr32 2 x) ^^^ (rotr32 13 x) ^^^ (rotr32 22 x)

/-- Compression Sigma-1. -/
def bigSigma1 (x : Nat) : Nat := (rotr32 6 x) ^^^ (rotr32 11 x) ^^^ (rotr32 25 x)

/-- The choice function; `4294967295 - x` is the 32-bit complement of `x`. -/
def chFn (x y z : Nat) : Nat := (x &&& y) ^^^ ((4294967295 - x) &&& z)

/-- The majority function. -/
def majFn (x y z : Nat) : Nat := (x &&& y) ^^^ (x &&& z) ^^^ (y &&& z)

/-- The 64 SHA-256 round constants (FIPS 180-4 §4.2.2, written in
decimal). -/
def sha256K : List Nat :=
  [1116352408, 1899447441, 3049323471, 3921009573, 961987163, 1508970993,
   2453635748, 2870763221, 3624381080, 310598401, 607225278, 1426881987,
   1925078388, 2162078206, 2614888103, 3248222580, 3835390401, 4022224774,
   264347078, 604807628, 770255983, 1249150122, 1555081692, 1996064986,
   2554220882, 2821834349, 2952996808, 3210313671, 3336571891, 3584528711,
   113926993, 338241895, 666307205, 773529912, 1294757372, 1396182291,
   1695183700, 1986661051, 2177026350, 2456956037, 2730485921, 2820302411,
   3259730800, 3345764771, 3516065817, 3600352804, 4094571909, 275423344,
   430227734, 506948616, 659060556, 883997877, 958139571, 1322822218,
   1537002063, 1747873779, 1955562222, 2024104815, 2227730452, 2361852424,
   2428436474, 2756734187, 3204031479, 3329325298]

/-- The SHA-256 initial hash state (FIPS 180-4 §5.3.3, in decimal). -/
def sha256H0 : List Nat :=
  [1779033703, 3144134277, 1013904242, 2773480762,
   1359893119, 2600822924, 528734635, 1541459225]

/-- `k` big-endian bytes of `n`. -/
def beBytes (k n : Nat) : List Nat :=
  (List.range k).map fun i => (n >>> (8 * (k - 1 - i))) % 256

/-- Big-endian word value of a byte list. -/
def wordBE (bytes : List Nat) : Nat := bytes.foldl (fun acc b => 256 * acc + b) 0

/-- Split into 4-byte groups (fuel-driven structural recursion so the kernel
can evaluate it). -/
def groupBytes : Nat → List Nat → List (List Nat)
  | 0, _ => []
  | _, [] => []
  | fuel + 1, l => l.take 4 :: groupBytes fuel (l.drop 4)

/-- Split into 64-byte blocks. -/
def blocks64 : Nat → List Nat → List (List Nat)
  | 0, _ => []
  | _, [] => []
  | fuel + 1, l => l.take 64 :: blocks64 fuel (l.drop 64)

/-- SHA-256 padding: append `0x80`, zero-fill to 56 mod 64, then the
bit length as 8 big-endian bytes. -/
def sha256Pad (msg : List Nat) : List Nat :=
  msg ++ [0x80] ++ List.replicate ((119 - msg.length % 64) % 64) 0
      ++ beBytes 8 (8 * msg.length)

/-- Extend the 16 schedule words to 64, kept in reverse order so the four
taps sit at fixed offsets from the head. -/
def scheduleExtend : Nat → List Nat → List Nat
  | 0, acc => acc
  | fuel + 1, acc =>
    scheduleExtend fuel
      (w32 (acc.getD 15 0 + smallSigma0 (acc.getD 14 0) + acc.getD 6 0
          + smallSigma1 (acc.getD 1 0)) :: acc)

/-- The 64-word message schedule of one block. -/
def sha256Schedule (block : List Nat) : List Nat :=
  (scheduleExtend 48 ((groupBytes 16 block).map wordBE).reverse).reverse

/-- One compression round on the 8-word working state. -/
def sha256Round (st : List Nat) (wk : Nat × Nat) : List Nat :=
  match st with
  | [a, b, c, d, e, f, g, h] =>
    let t1 := w32 (h + bigSigma1 e + chFn e f g + wk.2 + wk.1)
    let t2 := w32 (bigSigma0 a + majFn a b c)
    [w32 (t1 + t2), a, b, c, w32 (d + t1), e, f, g]
  | other => other

/-- Compress one 64-byte block into the hash state. -/
def sha256Compress (st : List Nat) (block : List Nat) : List Nat :=
  let final := ((sha256Schedule block).zip sha256K).foldl sha256Round st
  List.zipWith (fun x y => w32 (x + y)) st final

/-- `sha256.Sum256`: the 32-byte SHA-256 digest of a byte list. -/
def sha256 (msg : List Nat) : List Nat :=
  let padded := sha256Pad msg
  ((blocks64 padded.length padded).foldl sha256Compress sha256H0).flatMap
    (beBytes 4)

/-- UTF-8 encoding of one character (RFC 3629), the byte sequence Go's
`[]byte(s)` conversion produces for each rune. -/
def utf8EncodeCharNat (c : Char) : List Nat :=
  let n := c.toNat
  if n < 0x80 then [n]
  else if n < 0x800 then [0xC0 ||| (n >>> 6), 0x80 ||| (n &&& 0x3F)]
  else if n < 0x10000 then
    [0xE0 ||| (n >>> 12), 0x80 ||| ((n >>> 6) &&& 0x3F), 0x80 ||| (n &&& 0x3F)]
  else
    [0xF0 ||| (n >>> 18), 0x80 ||| ((n >>> 12) &&& 0x3F),
     0x80 ||| ((n >>> 6) &&& 0x3F), 0x80 ||| (n &&& 0x3F)]

/-- Go's `[]byte(s)`: the UTF-8 bytes of a string. -/
def utf8Bytes (s : String) : List Nat := s.data.flatMap utf8EncodeCharNat

/-! ## hex.DecodeString (Go `encoding/hex`) -/

/-- Value of one hex digit (`0-9`, `a-f`, `A-F`), or `none`;
comparisons are on the character's code point. -/
def hexDigit (c : Char) : Option Nat :=
  if 48 ≤ c.toNat ∧ c.toNat ≤ 57 then some (c.toNat - 48)
  else if 97 ≤ c.toNat ∧ c.toNat ≤ 102 then some (c.toNat - 87)
  else if 65 ≤ c.toNat ∧ c.toNat ≤ 70 then some (c.toNat - 55)
  else none

/-- Decode hex digit pairs; `none` on any invalid byte or odd length
(Go returns `InvalidByteError` / `ErrLength`; the callers only test the
error for non-nilness). -/
def hexDecodeChars : List Char → Option (List Nat)
  | [] => some []
  | [_] => none
  | hi :: lo :: rest => do
    let h ← hexDigit hi
    let l ← hexDigit lo
    let r ← hexDecodeChars rest
    pure ((16 * h + l) :: r)

/-- `hex.DecodeString`. -/
def hexDecode (s : String) : Option (List Nat) := hexDecodeChars s.data

/-! ## Signature verification wrappers

Both wrappers call the external go-ethereum `crypto.VerifySignature`
(secp256k1), which is outside this repository; the embedding is therefore
parametrized over the verifier function `verify`, receiving the decoded
public-key bytes, the 32-byte digest and the decoded signature bytes.
The wrappers themselves decide what gets hashed and how decoding failures
are reported, which is all the claims concern. -/

/-- `ValidatePayload` of src/crypto/crypto.go: hex-decodes the public key,
THE PAYLOAD, and the signature, then hashes the hex-decoded payload bytes
with SHA-256 and hands the digest to the secp256k1 verifier. -/
def ValidatePayload (verify : List Nat → List Nat → List Nat → Bool)
    (publicKey payload signature : String) : Except String Bool :=
  match hexDecode publicKey with
  | none => .error "encoding/hex: malformed public key"
  | some pubKeyBytes =>
    match hexDecode payload with
    | none => .error "encoding/hex: malformed payload"
    | some payloadBytes =>
      match hexDecode signature with
      | none => .error "encoding/hex: malformed signature"
      | some signatureBytes =>
        .ok (verify pubKeyBytes (sha256 payloadBytes) signatureBytes)

/-- `ValidatePayload` of src/unnamed/part_013 (the sibling implementation of
the same `cloudguardian_crypto` function): hex-decodes only the public key
and the signature, and hashes the UTF-8 bytes of the payload string itself. -/
def ValidatePayloadP13 (verify : List Nat → List Nat → List Nat → Bool)
    (publicKey payload signature : String) : Except String Bool :=
  match hexDecode publicKey with
  | none => .error "encoding/hex: malformed public key"
  | some publicKeyBytes =>
    match hexDecode signature with
    | none => .error "encoding/hex: malformed signature"
    | some signatureBytes =>
      .ok (verify publicKeyBytes (sha256 (utf8Bytes payload)) signatureBytes)

/-- A concrete verifier used only to evaluate the wrappers at one input: it
accepts exactly the SHA-256 digest of the UTF-8 bytes of `"ab"`.  The
external secp256k1 verifier is a black box to the wrapper, so any function
of the three byte arrays is an admissible instance. -/
def demoVerify (_pk digest _sig : List Nat) : Bool :=
  digest == sha256 (utf8Bytes "ab")

/-! ## Reboot safety monitor (src/unnamed/part_001 / src/cli/cli.go `checkRebootStatus`) -/

/-- Two's-complement wrap of an `Int` into the signed 64-bit range, the
behaviour of Go `int64` subtraction on overflow. -/
def int64Wrap (x : Int) : Int := (x + 2 ^ 63) % 2 ^ 64 - 2 ^ 63

/-- `maxRebootDuration`: maximum allowed reboot duration in seconds. -/
def maxRebootDuration : Int := 300

/-- The checkpoint marker written by `processJobReboot` and expected back by
`checkRebootStatus`. -/
def rebootMarkerChars : List Char := "initiated reboot, uptime: ".data

/-- Error message for a malformed checkpoint string. -/
def malformedMsg : String := "status data is not in the expected format"

/-- Error message for a host still running past the tolerance window. -/
def stillRunningMsg : String := "system is still running after the reboot was initiated"

/-- `checkRebootStatus(job)` with the `getUptime()` collaborator outcome made
an explicit argument (the Go code reads it through a mockable function
variable).  Returns Go's `(bool, error)` pair as `Bool × Option String`;
`none` is Go's `nil` error.  String operations are over the character list;
the marker is pure ASCII so byte- and character-level prefix/trim agree. -/
def checkRebootStatus (uptimeRead : Except String Int) (job : HostJob) :
    Bool × Option String :=
  if rebootMarkerChars.isPrefixOf job.Result.data then
    match parseIntChars (job.Result.data.drop rebootMarkerChars.length) with
    | none => (false, some malformedMsg)
    | some uptimeBeforeReboot =>
      match uptimeRead with
      | .error e => (false, some ("error getting uptime: " ++ e))
      | .ok uptime =>
        if uptime > uptimeBeforeReboot ∧
            int64Wrap (uptime - uptimeBeforeReboot) > maxRebootDuration then
          (false, some stillRunningMsg)
        else if uptime < uptimeBeforeReboot then
          (true, none)
        else
          (false, none)
  else (false, some malformedMsg)

/-- A job carrying only a result string, as in the unit tests of
`checkRebootStatus` (src/unnamed/part_003), which set only `Result`. -/
def mkResultJob (result : String) : HostJob :=
  { JobId := "", Signature := "", CreatedAt := "", JobType := "",
    JobData := "", Result := result, Status := "" }

/-! ## Observable events of the job orchestrator (src/unnamed/part_002)

Each collaborator invocation that is externally observable becomes one trace
event: `push` is `updateJobStatus(hostname, jobId, status, result)` (a PUT of
`{status, result}` to the control API, the only way the agent ever changes a
job's server-side state), `rebootInvoked` is `linux_reboot.Reboot()`,
`commandInvoked` is the `bash -c` subprocess, `updateAllInvoked` /
`updatePackagesInvoked` are the package-manager calls, and
`inventoryRefresh` is a `processUpdates` inventory report. -/

/-- One observable side effect of the orchestrator. -/
inductive Event where
  | push (jobId status result : String)
  | rebootInvoked
  | commandInvoked (command : String)
  | updateAllInvoked
  | updatePackagesInvoked (packages : List String)
  | inventoryRefresh
deriving Repr, DecidableEq

/-- Outcomes of the orchestrator's collaborators for one processing cycle,
passed explicitly: the Go code reaches them through package-level functions
and the function variable `getUptime` that its own tests mock the same way.
`validate` is the outcome of `tryValidatePayload(Config.HostSecurityKeys,
message, signature)` as a function of message and signature (its body lives
outside the repository slice; no claim here depends on its internals, only
on its `(bool, error)` outcome). `getJobsResponse` is the
`(statusCode, body, err)` triple of `api.GetRequest` for the job fetch, and
`parseJobs` the `json.Unmarshal` outcome on a response body, returning the
`content` field of the envelope. -/
structure Env where
  hostname : String
  validate : String → String → Except String Bool
  uptime : Except String Int
  rebootErr : Option String
  detectPM : Except String Unit
  updateAll : String × String × Option String
  updatePkgs : List String → String × String × Option String
  runCmd : String → String × String × Option String
  getJobsResponse : Int × String × Option String
  parseJobs : String → Except String (List HostJob)

/-- `linux_uptime.GetUptime` returns the Go pair `(int64, error)`; every
error path in src/linux/uptime/uptime.go returns `0, err`, so an error
outcome always carries the value 0. -/
def goUptimePair (u : Except String Int) : Int × Option String :=
  match u with
  | .ok v => (v, none)
  | .error e => (0, some e)

/-- The canonical signing message reconstructed by `processNewJobs`:
the literal JSON-like string over the job's fields and the agent hostname. -/
def canonicalMessage (hostname : String) (job : HostJob) : String :=
  "\x7b\x22createdAt\x22:\x22" ++ job.CreatedAt ++
  "\x22,\x22hostname\x22:\x22" ++ hostname ++
  "\x22,\x22jobType\x22:\x22" ++ job.JobType ++
  "\x22,\x22jobData\x22:\x22" ++ job.JobData ++ "\x22\x7d"

/-- `processJobReboot(hostname, jobId)`: read uptime; below the tolerance,
return silently; on a read error, push failed; otherwise push running with
the checkpoint string and invoke the OS reboot, pushing failed if the
reboot call itself errors. -/
def processJobReboot (env : Env) (jobId : String) : List Event :=
  let (uptime, uptimeErr) := goUptimePair env.uptime
  if uptime < maxRebootDuration then []
  else if uptimeErr.isSome then
    [.push jobId "failed" "Reboot failed, because we couldn't check the uptime of the host"]
  else
    .push jobId "running" ("initiated reboot, uptime: " ++ toString uptime) ::
    .rebootInvoked ::
    (match env.rebootErr with
     | some _ => [.push jobId "failed" "Reboot failed, because we couldn't initiate the reboot"]
     | none => [])

/-- `processJobCommand(hostname, jobId, command)`: push running, run the
shell command, then push completed with stdout or failed with stderr. -/
def processJobCommand (env : Env) (jobId command : String) : List Event :=
  .push jobId "running" "" ::
  .commandInvoked command ::
  (let (stdOut, stdErr, err) := env.runCmd command
   match err with
   | some _ => [.push jobId "failed" ("failed to execute command: " ++ stdErr)]
   | none => [.push jobId "completed" stdOut])

/-- `processJobUpdate(hostname, jobId, packages)`: push running, detect the
package manager (silently returning on failure), update all packages when
the first comma-separated entry is `all` else the named list, then push
completed/failed and on success refresh the update inventories. -/
def processJobUpdate (env : Env) (jobId packages : String) : List Event :=
  .push jobId "running" "" ::
  (match env.detectPM with
   | .error _ => []
   | .ok _ =>
     let packageList := packages.splitOn ","
     let invoked : Event :=
       if packageList.headD "" = "all" then .updateAllInvoked
       else .updatePackagesInvoked packageList
     let (stdOut, stdErr, err) :=
       if packageList.headD "" = "all" then env.updateAll
       else env.updatePkgs packageList
     invoked ::
     (match err with
      | some _ => [.push jobId "failed" ("failed to update packages " ++ stdErr)]
      | none => [.push jobId "completed" stdOut, .inventoryRefresh, .inventoryRefresh]))

/-- The reason string pushed when `tryValidatePayload` reports an error. -/
def couldNotValidateMsg : String :=
  "could not find valid host security key or failed to verify job payload"

/-- The reason string pushed when the signature is cryptographically rejected. -/
def invalidSignatureMsg : String := "invalid job payload signature"

/-- The body of the `for _, job := range *submittedJobs` loop of
`processNewJobs`: reconstruct the canonical message, validate the signature
(pushing failed and continuing on error or rejection), then dispatch on the
job type; `script` and `update_agent` only log, unknown types push failed. -/
def processOneJob (env : Env) (job : HostJob) : List Event :=
  match env.validate (canonicalMessage env.hostname job) job.Signature with
  | .error _ => [.push job.JobId "failed" couldNotValidateMsg]
  | .ok false => [.push job.JobId "failed" invalidSignatureMsg]
  | .ok true =>
    match job.JobType with
    | "update" => processJobUpdate env job.JobId job.JobData
    | "reboot" => processJobReboot env job.JobId
    | "command" => processJobCommand env job.JobId job.JobData
    | "script" => []
    | "update_agent" => []
    | _ => [.push job.JobId "failed" "unknown job type"]

/-- The whole submitted-jobs loop: every job is processed in order and the
loop never aborts early (every failure branch ends in `continue`). -/
def processJobsLoop (env : Env) (jobs : List HostJob) : List Event :=
  jobs.flatMap (processOneJob env)

/-- `handleAPIError(errorMsg, statusCode)` (src/unnamed/part_001): 404 and
401 call `log.Fatal`, which terminates the process — modelled as the
`Except.error` case; all other codes only log. -/
def handleAPIError (statusCode : Int) : Except String Unit :=
  if statusCode = 404 then .error "API URL is incorrect"
  else if statusCode = 401 then
    .error "Invalid API key. Please check your API key in the configuration file or command line arguments."
  else .ok ()

/-- `fetchHostJobs(hostname, status)` (src/unnamed/part_001): the outer
`Except` is process termination (`log.Fatal` inside `handleAPIError`);
the value is Go's `(*[]HostJob, error)` pair, with `(none, none)` encoding
the 404 no-jobs case. -/
def fetchHostJobs (env : Env) :
    Except String (Option (List HostJob) × Option String) :=
  let (statusCode, body, err) := env.getJobsResponse
  match err with
  | some e => .ok (none, some e)
  | none =>
    if statusCode = 404 then .ok (none, none)
    else if statusCode ≠ 200 then do
      handleAPIError statusCode
      .ok (none, some "error retrieving host jobs")
    else
      match env.parseJobs body with
      | .error e => .ok (none, some e)
      | .ok jobs => .ok (some jobs, none)

/-- `processNewJobs(hostname)` (src/unnamed/part_002): fetch the submitted
jobs and run the processing loop.  A fetch error hits
`log.Fatal("Error fetching host jobs:", ...)` — the process exits, modelled
as `Except.error`; the `return` after that call is unreachable. -/
def processNewJobs (env : Env) : Except String (List Event) := do
  let (jobsOpt, errOpt) ← fetchHostJobs env
  match errOpt with
  | some e => .error ("Error fetching host jobs:" ++ e)
  | none =>
    match jobsOpt with
    | none => .ok []
    | some jobs => .ok (processJobsLoop env jobs)

/-! ## Polling scheduler (src/unnamed/part_002 `ProcessTasks`) -/

/-- One tick of the minute counter: incremented after the sleep, then reset
to 0 only when it exceeds 1440. -/
def nextCounter (c : Int) : Int :=
  let c1 := c + 1
  if c1 > 1440 then 0 else c1

/-- The counter value during cycle `n` of the polling loop (`n = 0` is the
first pass; the counter starts at 0). -/
def counterAt : Nat → Int
  | 0 => 0
  | n + 1 => nextCounter (counterAt n)

/-- Whether the daily task group (`processDailyTasks`) runs during cycle
`n`: gated by `minuteCounter % 1440 == 0`. -/
def dailyRuns (n : Nat) : Bool := counterAt n % 1440 = 0

/-! ## Demonstration environment for concrete evaluations -/

/-- A fixed collaborator environment where everything succeeds: signature
validation accepts, uptime reads 1000 seconds, subprocesses succeed, and the
job fetch returns HTTP 200 with one job parsed from the body. -/
def demoEnv : Env where
  hostname := "host1"
  validate := fun _ _ => .ok true
  uptime := .ok 1000
  rebootErr := none
  detectPM := .ok ()
  updateAll := ("all updated", "", none)
  updatePkgs := fun _ => ("named updated", "", none)
  runCmd := fun _ => ("command output", "", none)
  getJobsResponse := (200, "body", none)
  parseJobs := fun _ => .ok []

/-- A command job used in concrete evaluations. -/
def demoCommandJob : HostJob :=
  { JobId := "j1", Signature := "sig", CreatedAt := "2024-01-01",
    JobType := "command", JobData := "ls", Result := "", Status := "submitted" }

/-- A reboot job used in concrete evaluations. -/
def demoRebootJob : HostJob :=
  { JobId := "j2", Signature := "sig", CreatedAt := "2024-01-01",
    JobType := "reboot", JobData := "", Result := "", Status := "submitted" }

/-- `demoEnv` with signature verification rejecting every payload. -/
def demoRejectEnv : Env := { demoEnv with validate := fun _ _ => .ok false }

/-- `demoEnv` with signature verification failing with a key/format error. -/
def demoErrEnv : Env :=
  { demoEnv with validate := fun _ _ => .error "invalid public key" }

/-- `demoEnv` with a host uptime of 50 seconds, below the 300-second
reboot tolerance. -/
def demoLowUptimeEnv : Env := { demoEnv with uptime := .ok 50 }

/-- `demoEnv` with the job fetch answered by HTTP 500 and an empty body. -/
def demoHttp500Env : Env := { demoEnv with getJobsResponse := (500, "", none) }

/-- `demoEnv` with the job fetch failing at the transport level
(`api.GetRequest` returns status 500 and a non-nil error on a network
failure). -/
def demoNetFailEnv : Env :=
  { demoEnv with getJobsResponse := (500, "", some "connection refused") }

/-! ## Supporting lemmas -/

theorem isPrefixOf_append_self (l t : List Char) : l.isPrefixOf (l ++ t) = true :=
  List.isPrefixOf_iff_prefix.mpr (List.prefix_append l t)

theorem parseIntChars_range (s : List Char) (b : Int)
    (h : parseIntChars s = some b) : -(2 ^ 63) ≤ b ∧ b < 2 ^ 63 := by
  match s with
  | [] => simp [parseIntChars] at h
  | c :: rest =>
    simp only [parseIntChars] at h
    split_ifs at h <;>
      first
        | exact Option.noConfusion h
        | · obtain ⟨n, hn, h2⟩ := Option.bind_eq_some.mp h
            split_ifs at h2 with hle
            cases h2; omega

/-- Evaluation of `checkRebootStatus` when the result string decomposes into
the checkpoint marker followed by a string that `ParseInt` accepts. -/
theorem checkRebootStatus_parsed (u : Except String Int) (job : HostJob)
    (ds : List Char) (before : Int)
    (hdata : job.Result.data = rebootMarkerChars ++ ds)
    (hparse : parseIntChars ds = some before) :
    checkRebootStatus u job =
      match u with
      | .error e => (false, some ("error getting uptime: " ++ e))
      | .ok now =>
        if now > before ∧ int64Wrap (now - before) > maxRebootDuration then
          (false, some stillRunningMsg)
        else if now < before then (true, none)
        else (false, none) := by
  unfold checkRebootStatus
  rw [hdata, isPrefixOf_append_self]
  simp only [if_true]
  have hlen : rebootMarkerChars.length = 26 := by decide
  rw [show (rebootMarkerChars ++ ds).drop rebootMarkerChars.length = ds from
    List.drop_left rebootMarkerChars ds]
  rw [hparse]

/-! ## Claim C7 -/

/-- C7: for every job whose result carries a checkpoint value (the marker
followed by a `ParseInt`-accepted integer), if the current-uptime read fails
with error `e`, `checkRebootStatus` returns `(false, UptimeUnavailable)` — the
error wrapping `e` — regardless of the checkpoint value, and in particular
never concludes success or definite failure. -/
theorem C7_uptime_read_failure (job : HostJob) (ds : List Char) (before : Int)
    (e : String)
    (hdata : job.Result.data = rebootMarkerChars ++ ds)
    (hparse : parseIntChars ds = some before) :
    checkRebootStatus (.error e) job =
      (false, some ("error getting uptime: " ++ e)) := by
  rw [checkRebootStatus_parsed (.error e) job ds before hdata hparse]

/-- Witness for C7 at checkpoint 1000 and uptime-read error
"failed to get uptime". -/
theorem C7_uptime_read_failure_witness :
    (mkResultJob "initiated reboot, uptime: 1000").Result.data
        = rebootMarkerChars ++ "1000".data
    ∧ parseIntChars "1000".data = some 1000
    ∧ checkRebootStatus (.error "failed to get uptime")
        (mkResultJob "initiated reboot, uptime: 1000")
        = (false, some ("error getting uptime: " ++ "failed to get uptime")) :=
  ⟨by decide, by decide,
    C7_uptime_read_failure (mkResultJob "initiated reboot, uptime: 1000")
      "1000".data 1000 "failed to get uptime" (by decide) (by decide)⟩

/-! ## Claim C2 -/

/-- C2 counterexample: the claim demands `(false, StillRunning)` whenever
`now - before > 300`, but for the checkpoint `-9223372036854775808`
(accepted by `ParseInt`) and current uptime `0`, where the mathematical
difference `2^63` far exceeds 300, the Go `int64` subtraction wraps to
`-2^63` and `checkRebootStatus` returns `(false, nil)` instead. -/
theorem C2_counterexample :
    (mkResultJob "initiated reboot, uptime: -9223372036854775808").Result.data
        = rebootMarkerChars ++ "-9223372036854775808".data
    ∧ parseIntChars "-9223372036854775808".data = some (-9223372036854775808)
    ∧ ((0 : Int) - (-9223372036854775808) > 300)
    ∧ checkRebootStatus (.ok 0)
        (mkResultJob "initiated reboot, uptime: -9223372036854775808")
        ≠ (false, some stillRunningMsg)
    ∧ checkRebootStatus (.ok 0)
        (mkResultJob "initiated reboot, uptime: -9223372036854775808")
        = (false, none) :=
  ⟨by decide, by decide, by decide, by decide, by decide⟩

/-- C2 (amended): for every job whose result is the checkpoint marker
followed by a `ParseInt`-accepted integer `before`, and every successfully
read int64 uptime `now`: `checkRebootStatus` returns `(true, nil)` when
`now < before`; `(false, StillRunning)` when `300 < now - before < 2^63`;
and `(false, nil)` when `0 ≤ now - before ≤ 300`, as well as when
`now - before ≥ 2^63`, where the Go 64-bit subtraction wraps around. -/
theorem C2_reboot_decision (job : HostJob) (ds : List Char) (before now : Int)
    (hdata : job.Result.data = rebootMarkerChars ++ ds)
    (hparse : parseIntChars ds = some before)
    (hnow : -(2 ^ 63) ≤ now ∧ now < 2 ^ 63) :
    checkRebootStatus (.ok now) job =
      if now < before then (true, none)
      else if now - before > 300 ∧ now - before < 2 ^ 63 then
        (false, some stillRunningMsg)
      else (false, none) := by
  rw [checkRebootStatus_parsed (.ok now) job ds before hdata hparse]
  have hb := parseIntChars_range ds before hparse
  simp only [int64Wrap, maxRebootDuration]
  split_ifs <;> first | rfl | omega

/-- Witness for C2 (amended) at checkpoint 1000 and uptime 1400:
delta 400 exceeds the 300-second tolerance, so the job failed. -/
theorem C2_reboot_decision_witness :
    (mkResultJob "initiated reboot, uptime: 1000").Result.data
        = rebootMarkerChars ++ "1000".data
    ∧ parseIntChars "1000".data = some 1000
    ∧ checkRebootStatus (.ok 1400) (mkResultJob "initiated reboot, uptime: 1000")
        = (false, some stillRunningMsg) := by
  refine ⟨by decide, by decide, ?_⟩
  rw [C2_reboot_decision (mkResultJob "initiated reboot, uptime: 1000")
    "1000".data 1000 1400 (by decide) (by decide) (by constructor <;> decide)]
  decide

/-! ## Claim C3 -/

/-- C3 counterexample: the result string
`"initiated reboot, uptime: -5"` is not the marker followed by a
non-negative base-10 integer, yet `checkRebootStatus` does not report the
malformed-checkpoint error: `ParseInt` accepts the signed value `-5` and the
decision logic proceeds, returning `(false, nil)` at current uptime 0. -/
theorem C3_counterexample :
    (¬ ∃ ds : List Char,
        (mkResultJob "initiated reboot, uptime: -5").Result.data
            = rebootMarkerChars ++ ds
        ∧ ds ≠ [] ∧ ds.all Char.isDigit = true)
    ∧ checkRebootStatus (.ok 0) (mkResultJob "initiated reboot, uptime: -5")
        ≠ (false, some malformedMsg)
    ∧ checkRebootStatus (.ok 0) (mkResultJob "initiated reboot, uptime: -5")
        = (false, none) := by
  refine ⟨?_, by decide, by decide⟩
  rintro ⟨ds, hd, _, hdig⟩
  have h2 : rebootMarkerChars ++ ('-' :: '5' :: []) = rebootMarkerChars ++ ds := by
    rw [← hd]; decide
  cases List.append_cancel_left h2
  exact absurd hdig (by decide)

/-- C3 (amended): for every job whose result string is not the checkpoint
marker followed by an optionally signed base-10 integer within the signed
64-bit range (i.e. anything `strconv.ParseInt` rejects), `checkRebootStatus`
returns `(false, MalformedCheckpoint)` for every uptime-read outcome, never
concluding success. -/
theorem C3_malformed_checkpoint (job : HostJob) (u : Except String Int)
    (h : ¬ ∃ ds b, job.Result.data = rebootMarkerChars ++ ds
        ∧ parseIntChars ds = some b) :
    checkRebootStatus u job = (false, some malformedMsg) := by
  unfold checkRebootStatus
  by_cases hp : rebootMarkerChars.isPrefixOf job.Result.data
  · obtain ⟨t, ht⟩ := List.isPrefixOf_iff_prefix.mp hp
    rw [if_pos hp]
    cases hparse : parseIntChars (job.Result.data.drop rebootMarkerChars.length) with
    | none => rfl
    | some b =>
      exact absurd ⟨t, b, ht.symm, by rwa [← ht, List.drop_left] at hparse⟩ h
  · rw [if_neg (by simpa using hp)]

/-- Witness for C3 (amended) at the result `"bogus"` and uptime outcome 0. -/
theorem C3_malformed_checkpoint_witness :
    checkRebootStatus (.ok 0) (mkResultJob "bogus") = (false, some malformedMsg) := by
  refine C3_malformed_checkpoint (mkResultJob "bogus") (.ok 0) ?_
  rintro ⟨ds, b, hd, -⟩
  have hd2 : "bogus".data = rebootMarkerChars ++ ds := hd
  have hlen := congrArg List.length hd2
  rw [List.length_append] at hlen
  rw [show ("bogus".data).length = 5 from by decide,
    show rebootMarkerChars.length = 26 from by decide] at hlen
  omega

/-! ## Claim C4 -/

/-- C4: for every submitted job whose signature validation yields an error
or a `false` result, the orchestrator pushes exactly one status update for
that job — "failed", with a reason distinguishing the could-not-validate
(key/format error) case from the invalid-signature case — no job-type
dispatch occurs (the job's trace is that single push and nothing else), and
processing continues with the remaining jobs of the batch. -/
theorem C4_rejected_job_single_push (env : Env) (js1 js2 : List HostJob)
    (job : HostJob)
    (h : (∃ e, env.validate (canonicalMessage env.hostname job) job.Signature
            = .error e)
       ∨ env.validate (canonicalMessage env.hostname job) job.Signature
            = .ok false) :
    processJobsLoop env (js1 ++ job :: js2) =
      processJobsLoop env js1
        ++ [Event.push job.JobId "failed"
              (match env.validate (canonicalMessage env.hostname job)
                  job.Signature with
               | .error _ => couldNotValidateMsg
               | _ => invalidSignatureMsg)]
        ++ processJobsLoop env js2 := by
  unfold processJobsLoop
  rw [List.flatMap_append, List.flatMap_cons]
  rcases h with ⟨e, he⟩ | he <;> simp [processOneJob, he]

/-- Witness for C4: a batch of three jobs where the middle one is rejected
by signature verification; it receives the single invalid-signature push
while the surrounding jobs are processed normally. -/
theorem C4_rejected_job_single_push_witness :
    (demoRejectEnv.validate
        (canonicalMessage demoRejectEnv.hostname demoCommandJob)
        demoCommandJob.Signature = .ok false)
    ∧ processJobsLoop demoRejectEnv
        ([demoRebootJob] ++ demoCommandJob :: [demoRebootJob]) =
      processJobsLoop demoRejectEnv [demoRebootJob]
        ++ [Event.push demoCommandJob.JobId "failed"
              (match demoRejectEnv.validate
                  (canonicalMessage demoRejectEnv.hostname demoCommandJob)
                  demoCommandJob.Signature with
               | .error _ => couldNotValidateMsg
               | _ => invalidSignatureMsg)]
        ++ processJobsLoop demoRejectEnv [demoRebootJob] :=
  ⟨rfl, C4_rejected_job_single_push demoRejectEnv [demoRebootJob]
    [demoRebootJob] demoCommandJob (Or.inr rfl)⟩

/-! ## Claim C5 -/

/-- C5 (code bug): the claim — matching the spec's error-handling design —
says a transport/API failure of the job fetch that is not client
misconfiguration never exits the process and the batch is retried next
cycle.  But `processNewJobs` calls `log.Fatal` on every fetch error: an
HTTP 500 (which `handleAPIError` itself treats as non-fatal, first
conjunct) and a plain network failure both terminate the agent (the
`Except.error` outcomes below).  The dead `return` directly after that
`log.Fatal`, and the sibling `processRunningJobs` which only logs the same
failure, show the non-fatal intent. -/
theorem C5_fetch_error_is_fatal :
    handleAPIError 500 = .ok ()
    ∧ fetchHostJobs demoHttp500Env = .ok (none, some "error retrieving host jobs")
    ∧ processNewJobs demoHttp500Env
        = .error "Error fetching host jobs:error retrieving host jobs"
    ∧ processNewJobs demoNetFailEnv
        = .error "Error fetching host jobs:connection refused" :=
  ⟨rfl, rfl, rfl, rfl⟩

/-! ## Claim C6 -/

/-- C6: a submitted reboot job with a valid signature, handled while the
host's current uptime reads below the 300-second tolerance, produces no
observable event at all: no status push (its server-side status stays
"submitted", since `push` events are the only way the agent updates a job)
and no reboot invocation. -/
theorem C6_low_uptime_frame (env : Env) (job : HostJob) (u : Int)
    (hv : env.validate (canonicalMessage env.hostname job) job.Signature
        = .ok true)
    (ht : job.JobType = "reboot")
    (hu : env.uptime = .ok u) (hlt : u < maxRebootDuration) :
    processOneJob env job = [] := by
  unfold processOneJob
  rw [hv, ht]
  unfold processJobReboot
  rw [hu]
  simp [goUptimePair, hlt]

/-- Witness for C6 at uptime 50 seconds. -/
theorem C6_low_uptime_frame_witness :
    (demoLowUptimeEnv.validate
        (canonicalMessage demoLowUptimeEnv.hostname demoRebootJob)
        demoRebootJob.Signature = .ok true)
    ∧ demoRebootJob.JobType = "reboot"
    ∧ demoLowUptimeEnv.uptime = .ok 50
    ∧ (50 : Int) < maxRebootDuration
    ∧ processOneJob demoLowUptimeEnv demoRebootJob = [] :=
  ⟨rfl, rfl, rfl, by decide,
    C6_low_uptime_frame demoLowUptimeEnv demoRebootJob 50 rfl rfl rfl
      (by decide)⟩

/-! ## Claim C8 -/

/-- Any terminal push in a trace that starts with a "running" push for the
same job is preceded by that "running" push. -/
theorem runningHead_ordered (id r0 : String) (rest : List Event) :
    ∀ i s r, (Event.push id "running" r0 :: rest).get? i
        = some (.push id s r) →
      (s = "completed" ∨ s = "failed") →
      ∃ j r2, j < i ∧ (Event.push id "running" r0 :: rest).get? j
          = some (.push id "running" r2) := by
  intro i s r hi hs
  match i with
  | 0 =>
    have h0 : Event.push id "running" r0 = Event.push id s r := by
      simpa using hi
    injection h0 with h1 h2 h3
    rcases hs with h | h <;> rw [← h2] at h <;> exact absurd h (by decide)
  | k + 1 => exact ⟨0, r0, Nat.succ_pos k, rfl⟩

/-- The ordering property holds vacuously for an empty trace. -/
theorem emptyTrace_ordered (id : String) :
    ∀ i s r, ([] : List Event).get? i = some (.push id s r) →
      (s = "completed" ∨ s = "failed") →
      ∃ j r2, j < i ∧ ([] : List Event).get? j
          = some (.push id "running" r2) := by
  intro i s r hi _
  cases i <;> exact Option.noConfusion hi

/-- C8 counterexample: a job rejected by signature verification is pushed
terminally "failed" without any preceding "running" push, so the ordering
guarantee as claimed — running strictly before any terminal push, for every
processed job — fails on rejected jobs. -/
theorem C8_counterexample :
    processOneJob demoRejectEnv demoCommandJob
        = [Event.push "j1" "failed" invalidSignatureMsg]
    ∧ ¬ (∀ i s r, (processOneJob demoRejectEnv demoCommandJob).get? i
            = some (.push "j1" s r) →
          (s = "completed" ∨ s = "failed") →
          ∃ j r2, j < i ∧ (processOneJob demoRejectEnv demoCommandJob).get? j
              = some (.push "j1" "running" r2)) := by
  refine ⟨rfl, fun hcl => ?_⟩
  obtain ⟨j, r2, hj, -⟩ :=
    hcl 0 "failed" invalidSignatureMsg rfl (Or.inr rfl)
  exact absurd hj (Nat.not_lt_zero j)

/-- C8 (amended): for every job that passes signature validation and whose
type is one of the dispatched types, any terminal "completed"/"failed" push
in that cycle's trace is strictly preceded by a "running" push for the same
job.  (Jobs rejected before dispatch — validation error/failure or unknown
type — receive a single terminal "failed" push with no preceding "running";
the reboot-confirmation terminal push happens in a later cycle, after the
pre-reboot "running", which is the claim's acknowledged reboot gap.) -/
theorem C8_running_before_terminal (env : Env) (job : HostJob)
    (hv : env.validate (canonicalMessage env.hostname job) job.Signature
        = .ok true)
    (ht : job.JobType = "update" ∨ job.JobType = "reboot"
        ∨ job.JobType = "command" ∨ job.JobType = "script"
        ∨ job.JobType = "update_agent") :
    ∀ i s r, (processOneJob env job).get? i = some (.push job.JobId s r) →
      (s = "completed" ∨ s = "failed") →
      ∃ j r2, j < i ∧ (processOneJob env job).get? j
          = some (.push job.JobId "running" r2) := by
  rcases ht with h | h | h | h | h <;>
    simp only [processOneJob, hv, h]
  · exact runningHead_ordered job.JobId "" _
  · unfold processJobReboot
    cases hu : env.uptime with
    | error e =>
      simp only [goUptimePair]
      rw [if_pos (by decide : (0 : Int) < maxRebootDuration)]
      exact emptyTrace_ordered job.JobId
    | ok u =>
      simp only [goUptimePair]
      split_ifs with h1 h2
      · exact emptyTrace_ordered job.JobId
      · exact absurd h2 (by decide)
      · exact runningHead_ordered job.JobId _ _
  · exact runningHead_ordered job.JobId "" _
  · exact emptyTrace_ordered job.JobId
  · exact emptyTrace_ordered job.JobId

/-- Witness for C8 (amended) on a valid command job. -/
theorem C8_running_before_terminal_witness :
    (demoEnv.validate (canonicalMessage demoEnv.hostname demoCommandJob)
        demoCommandJob.Signature = .ok true)
    ∧ demoCommandJob.JobType = "command"
    ∧ (∀ i s r, (processOneJob demoEnv demoCommandJob).get? i
          = some (.push demoCommandJob.JobId s r) →
        (s = "completed" ∨ s = "failed") →
        ∃ j r2, j < i ∧ (processOneJob demoEnv demoCommandJob).get? j
            = some (.push demoCommandJob.JobId "running" r2)) :=
  ⟨rfl, rfl, C8_running_before_terminal demoEnv demoCommandJob rfl
    (Or.inr (Or.inr (Or.inl rfl)))⟩

/-! ## Claim C9 -/

/-- The minute counter of `ProcessTasks` cycles with period 1441, not 1440:
it is reset only when it exceeds 1440. -/
theorem counterAt_eq_mod (n : Nat) : counterAt n = ((n % 1441 : Nat) : Int) := by
  induction n with
  | zero => rfl
  | succ n ih =>
    simp only [counterAt, nextCounter, ih]
    split_ifs <;> omega

/-- C9 (code bug): the claim — following the spec — says the counter is
reset every 1440 minutes, stays below 1440, and the daily group runs exactly
once per 1440-minute period.  The code resets only when the counter exceeds
1440, so the counter reaches 1440, and the daily group (gated on
`counter % 1440 == 0`) runs at minute 1440 and again at minute 1441 — twice
on consecutive minutes, with the actual reset period being 1441 minutes. -/
theorem C9_daily_group_double_fire :
    counterAt 1440 = 1440
    ∧ counterAt 1441 = 0
    ∧ dailyRuns 1440 = true
    ∧ dailyRuns 1441 = true
    ∧ dailyRuns 1 = false := by
  refine ⟨?_, ?_, ?_, ?_, ?_⟩ <;>
    simp only [dailyRuns, counterAt_eq_mod] <;> decide

/-! ## Claim C10 -/

/-- C10: whenever the uptime reader fails, `processJobReboot` returns
without any observable effect — no status push and no reboot.  The branch
pushing "failed" with the could-not-check-uptime reason is unreachable:
`GetUptime` returns the pair `(0, err)` on failure, and the uptime-below-300
early return is evaluated before the error is examined, so uptime 0 always
takes the early return first. -/
theorem C10_uptime_error_unreachable_branch (env : Env) (e jobId : String) :
    processJobReboot { env with uptime := .error e } jobId = [] := by
  simp [processJobReboot, goUptimePair, maxRebootDuration]

/-! ## Claim C1 -/

/-- C1 (code bug in src/crypto/crypto.go): the claim — matching the spec and
the sibling implementation in src/unnamed/part_013 as well as crypto.go's own
commented-out self-test — says `ValidatePayload` hashes the UTF-8 bytes of
the message string itself.  The crypto.go implementation instead hex-decodes
the payload and hashes the decoded bytes: at key "04", message "ab",
signature "00" (all hex-decodable), a verifier that accepts exactly the
digest of the UTF-8 bytes of "ab" answers true on the claimed digest, yet
crypto.go's wrapper returns `ok false` because it hashed the byte `0xab`
instead; the part_013 implementation returns `ok true` as the claim states.
Moreover the canonical signing message the production caller passes is never
valid hex (it starts with a brace), so under crypto.go every job would fail
validation with a decoding error, for every possible verifier. -/
theorem C1_payload_digest_divergence :
    ValidatePayload demoVerify "04" "ab" "00" = .ok false
    ∧ demoVerify [0x04] (sha256 (utf8Bytes "ab")) [0x00] = true
    ∧ hexDecode "04" = some [0x04]
    ∧ hexDecode "00" = some [0x00]
    ∧ ValidatePayloadP13 demoVerify "04" "ab" "00" = .ok true
    ∧ (∀ vf : List Nat → List Nat → List Nat → Bool,
        ValidatePayload vf "04" (canonicalMessage "host1" demoCommandJob) "00"
          = .error "encoding/hex: malformed payload") := by
  refine ⟨rfl, by decide, by decide, by decide, rfl, fun vf => rfl⟩

end CloudGuardian
